import Mathlib

/-!
Verification of the expert-persona chat application (src/app.py).

The application is a single Streamlit script.  We give a shallow embedding:

* The remote chat-completion service is a parameter of type `Service`,
  a function from the request payload to either a raised error
  (`Except.error`, carrying the string rendering of the Python exception)
  or a parsed response object.
* Streamlit calls (`st.error`, `st.warning`, `st.subheader`, `st.write`,
  `st.spinner`, widget construction) are recorded as a list of `UIEvent`s
  in the order the script issues them.
* Outbound requests are recorded in a `List Request` so that theorems can
  speak about whether and with what payload the service was invoked.
* Python values that can flow into `st.write` are modelled by `PyValue`
  (`response.choices[0].message.content` may be `None`).
* Machine-level floats do not occur: the only numeric literal that is a
  float in the source, `temperature=0.7`, is modelled as the rational 7/10.
-/

/-- A Python value returned by `get_llm_response`: a string, or `None`
(the unchecked `message.content` can be `null`). -/
inductive PyValue where
  | str (s : String)
  | pyNone
deriving DecidableEq, Repr

/-- One entry of the `messages` list of the chat-completion request:
`{"role": ..., "content": ...}` (src/app.py lines 66-67). -/
structure Message where
  role : String
  content : String
deriving DecidableEq, Repr

/-- The payload of `client.chat.completions.create` (src/app.py lines 63-71):
model identifier, ordered message list, temperature (the float 0.7, modelled
as the rational 7/10) and max_tokens. -/
structure Request where
  model : String
  messages : List Message
  temperature : ℚ
  max_tokens : ℕ
deriving DecidableEq, Repr

/-- The `message` object inside a completion choice; its `content` field is
nullable in the wire schema, hence `Option String`. -/
structure ChatMessage where
  content : Option String
deriving DecidableEq, Repr

/-- One element of `response.choices`. -/
structure Choice where
  message : ChatMessage
deriving DecidableEq, Repr

/-- The parsed response of the remote service: a list of choices
(`response.choices`). -/
structure Response where
  choices : List Choice
deriving DecidableEq, Repr

/-- The remote chat-completion service.  `Except.error e` models the call
raising a Python exception whose string rendering is `e` (network failure,
authentication failure, quota, malformed response, ...); `Except.ok r`
models a successful call returning the parsed response `r`. -/
def Service := Request → Except String Response

/-- A Python exception kind raised by code of the script itself.
`keyError` models `KeyError` (a subclass of `LookupError`) raised by
`expert_roles[name]` for an unknown key. -/
inductive PyErr where
  | keyError (key : String)
deriving DecidableEq, Repr

/-- A Streamlit call issued by the script, in script order. -/
inductive UIEvent where
  | pageConfig (pageTitle : String) (layout : String)
  | title (text : String)
  | markdown (text : String)
  | radio (label : String) (options : List String)
  | textArea (label : String) (height : ℕ)
  | button (label : String)
  | spinner (text : String)
  | subheader (text : String)
  | write (value : PyValue)
  | warning (text : String)
  | error (text : String)
  | exception (text : String)
deriving DecidableEq, Repr

/-- `st.error` text shown when `OPENAI_API_KEY` is missing (line 16). -/
def apiKeyErrorText : String :=
  "OpenAI APIキーが設定されていません。.envファイルまたはStreamlit CloudのSecretsに設定してください。"

/-- The prefix of the `st.error` message issued in the `except` branch of
`get_llm_response` (line 75); the Python f-string appends `str(e)`. -/
def errorHead : String := "LLMからの回答取得中にエラーが発生しました: "

/-- The fixed failure string returned by `get_llm_response` on any error
(line 76). -/
def failureString : String := "回答の取得に失敗しました。"

/-- `str(e)` for the `IndexError` raised by `response.choices[0]` when the
response carries no choices. -/
def indexErrorText : String := "list index out of range"

/-- `st.warning` text for an empty question (line 104). -/
def warnText : String := "質問を入力してください。"

/-- `st.spinner` text (line 93). -/
def spinnerText : String := "専門家が回答を考えています..."

/-- `st.radio` label (line 82). -/
def radioLabel : String := "回答してほしい専門家を選択してください:"

/-- `st.text_area` label (line 88). -/
def textAreaLabel : String := "ここに質問を入力してください:"

/-- `st.markdown` introduction text (lines 26-35). -/
def introText : String :=
  "\nこのアプリは、あなたの質問に対して、選択した専門家の視点からLLM（大規模言語モデル）が回答します。\n以下の手順でご利用ください：\n\n1.  **専門家を選択:** ラジオボタンから、回答してほしい専門家の種類を選びます。\n2.  **質問を入力:** 下のテキストボックスに質問を入力します。\n3.  **送信:** 「回答を生成」ボタンをクリックすると、LLMが回答を生成します。\n\n様々な専門家になりきったLLMの回答をお楽しみください！\n"

/-- The persona catalog `expert_roles` (src/app.py lines 40-45): an ordered
association list from persona display name to the system-message instruction
string, in the source's insertion order (Python dicts preserve insertion
order). -/
def expert_roles : List (String × String) :=
  [("ITコンサルタント",
    "あなたはITコンサルタントです。技術的な課題解決、システム導入、DX推進に関する専門知識を持ち、論理的かつ実践的なアドバイスを提供します。"),
   ("料理研究家",
    "あなたは料理研究家です。食材の知識、調理法、栄養バランス、食文化に精通しており、美味しくて健康的なレシピや食に関する情報を提供します。"),
   ("歴史学者",
    "あなたは歴史学者です。世界史、日本史、文化史など幅広い歴史的知識を持ち、客観的な事実に基づいた深い洞察と解説を提供します。"),
   ("キャリアアドバイザー",
    "あなたはキャリアアドバイザーです。個人のスキル、経験、興味を考慮し、転職、キャリアアップ、自己成長に関する具体的なアドバイスとサポートを提供します。")]

/-- `list(expert_roles.keys())`: the radio-option list (line 83), in the
catalog's insertion order. -/
def list_personas : List String := expert_roles.map Prod.fst

/-- The dictionary lookup `expert_roles[name]` (line 95): returns the
instruction string, or raises `KeyError name` (a `LookupError` kind) when
the name is not a key of the catalog. -/
def instruction_for (name : String) : Except PyErr String :=
  match expert_roles.lookup name with
  | some v => Except.ok v
  | Option.none => Except.error (PyErr.keyError name)

/-- The request payload built by `get_llm_response` (lines 63-71):
model `"gpt-3.5-turbo"`, the two-entry message list — system-role
instruction first, user-role question second — temperature 0.7 and
max_tokens 500. -/
def mkRequest (user_input : String) (expert_system_message : String) : Request :=
  Request.mk "gpt-3.5-turbo"
    [Message.mk "system" expert_system_message, Message.mk "user" user_input]
    (7 / 10) 500

/-- The outcome of one invocation of `get_llm_response`: the Python value it
returns, the Streamlit calls it issues, and the outbound requests it makes. -/
structure LLMCall where
  result : PyValue
  events : List UIEvent
  requests : List Request
deriving DecidableEq, Repr

/-- `get_llm_response(user_input, expert_system_message)` (src/app.py
lines 49-76).  It builds the payload, performs the single outbound call, and
returns `response.choices[0].message.content` on success; any exception
raised by the call or by `response.choices[0]` (empty `choices` raises
`IndexError`) is caught by the bare `except`, `st.error` is issued with the
exception text, and the fixed failure string is returned. -/
def get_llm_response (service : Service) (user_input : String)
    (expert_system_message : String) : LLMCall :=
  let req := mkRequest user_input expert_system_message
  match service req with
  | Except.ok response =>
    match response.choices.head? with
    | some choice =>
      match choice.message.content with
      | some text => LLMCall.mk (PyValue.str text) [] [req]
      | Option.none => LLMCall.mk PyValue.pyNone [] [req]
    | Option.none =>
      LLMCall.mk (PyValue.str failureString)
        [UIEvent.error (errorHead ++ indexErrorText)] [req]
  | Except.error e =>
    LLMCall.mk (PyValue.str failureString)
      [UIEvent.error (errorHead ++ e)] [req]

/-- The `if st.button("回答を生成"):` body (src/app.py lines 91-104).
Python's `if user_question:` is string truthiness: it is `True` exactly when
the string is non-empty, with no trimming.  On the truthy branch the script
shows the spinner, looks up `expert_roles[selected_expert]` (raising
`KeyError` for an unknown name), calls `get_llm_response`, then renders the
subheader naming the persona and `st.write`s the answer; on the falsy branch
it issues only the warning. -/
def handle_submit (service : Service) (selected_expert : String)
    (user_question : String) : List UIEvent × List Request :=
  if user_question ≠ "" then
    match expert_roles.lookup selected_expert with
    | some system_message_for_llm =>
      let call := get_llm_response service user_question system_message_for_llm
      (UIEvent.spinner spinnerText :: call.events ++
        [UIEvent.subheader ("✨ " ++ selected_expert ++ "からの回答:"),
         UIEvent.write call.result],
       call.requests)
    | Option.none =>
      ([UIEvent.spinner spinnerText,
        UIEvent.exception ("KeyError: " ++ selected_expert)], [])
  else
    ([UIEvent.warning warnText], [])

/-- One run of the whole script (src/app.py top to bottom).
`env_OPENAI_API_KEY` is `os.getenv("OPENAI_API_KEY")` (`none` when the
variable is absent); Python's `if not api_key:` is also truthy for the
empty string, and `st.stop()` ends the script right after the `st.error`,
before any widget is created.  Otherwise the page is rendered: page config,
title, intro markdown, the persona radio (options = the catalog keys,
default index 0), the question text area (height 150) and the submit
button; `selected_expert`, `user_question` and `clicked` are the values
those widgets return on this run. -/
def app (env_OPENAI_API_KEY : Option String) (service : Service)
    (selected_expert : String) (user_question : String) (clicked : Bool) :
    List UIEvent × List Request :=
  match env_OPENAI_API_KEY with
  | Option.none => ([UIEvent.error apiKeyErrorText], [])
  | some api_key =>
    if api_key = "" then ([UIEvent.error apiKeyErrorText], [])
    else
      let header := [UIEvent.pageConfig "専門家チャットアプリ" "centered",
        UIEvent.title "🤖 専門家チャットアプリ",
        UIEvent.markdown introText,
        UIEvent.radio radioLabel list_personas,
        UIEvent.textArea textAreaLabel 150,
        UIEvent.button "回答を生成"]
      if clicked then
        let res := handle_submit service selected_expert user_question
        (header ++ res.1, res.2)
      else (header, [])

/-- Input classifier used to state the claims: `true` iff every character of
the string is whitespace — which includes the empty string.  This is the
claims' notion of an "empty or whitespace-only" question; the source itself
never trims. -/
def blank (s : String) : Bool := s.toList.all Char.isWhitespace

/-- A deterministic stub service returning one choice with the fixed text
"Hello, adventurer." for every request. -/
def stubService : Service :=
  fun _ => Except.ok (Response.mk [Choice.mk (ChatMessage.mk (some "Hello, adventurer."))])

/-- A stub service that raises a transport error on every request. -/
def failingService : Service :=
  fun _ => Except.error "Connection error."

/-- A stub service whose first choice has `null` message content. -/
def nullContentService : Service :=
  fun _ => Except.ok (Response.mk [Choice.mk (ChatMessage.mk Option.none)])

/-- A second deterministic stub that agrees with `stubService` on every
request carrying a non-empty message list but differs elsewhere; used to
exhibit that the output of `get_llm_response` depends on the service only
through its answer to the one submitted request. -/
def stubService₂ : Service :=
  fun r => if r.messages = [] then Except.error "unreachable" else stubService r

/-- `true` iff the event is an `st.error` call. -/
def isErrorEvent : UIEvent → Bool
  | UIEvent.error _ => true
  | _ => false

/-- `true` iff `instruction_for` succeeds on `name` with a non-empty
instruction string. -/
def instructionOkNonempty (name : String) : Bool :=
  match instruction_for name with
  | Except.ok s => !(s == "")
  | Except.error _ => false

theorem get_llm_response_requests (s : Service) (q i : String) :
    (get_llm_response s q i).requests = [mkRequest q i] := by
  cases hs : s (mkRequest q i) with
  | error e => simp [get_llm_response, hs]
  | ok r =>
    cases hc : r.choices.head? with
    | none => simp [get_llm_response, hs, hc]
    | some c =>
      cases hm : c.message.content with
      | none => simp [get_llm_response, hs, hc, hm]
      | some t => simp [get_llm_response, hs, hc, hm]

theorem get_llm_response_events_cases (s : Service) (q i : String) :
    (get_llm_response s q i).events = [] ∨
    ∃ m, (get_llm_response s q i).events = [UIEvent.error m] := by
  cases hs : s (mkRequest q i) with
  | error e =>
    exact Or.inr ⟨errorHead ++ e, by simp [get_llm_response, hs]⟩
  | ok r =>
    cases hc : r.choices.head? with
    | none =>
      exact Or.inr ⟨errorHead ++ indexErrorText, by simp [get_llm_response, hs, hc]⟩
    | some c =>
      cases hm : c.message.content with
      | none => exact Or.inl (by simp [get_llm_response, hs, hc, hm])
      | some t => exact Or.inl (by simp [get_llm_response, hs, hc, hm])

/-- Claim C1, counterexample: the claim is false for a whitespace-only but
non-empty question.  Python's `if user_question:` is plain truthiness, so the
one-space question `" "` is truthy: the script performs a request (the
recorded request list is non-empty) and shows no validation warning. -/
theorem C1_counterexample :
    blank " " = true ∧
    (handle_submit stubService "ITコンサルタント" " ").2 ≠ [] ∧
    UIEvent.warning warnText ∉ (handle_submit stubService "ITコンサルタント" " ").1 := by
  exact ⟨by decide, by decide, by decide⟩

/-- Claim C1 (amended): for a submission whose question text is the empty
string, `get_llm_response` is never invoked (no request is recorded) and the
validation warning is the only Streamlit call; a whitespace-only non-empty
question, by contrast, does trigger a request (see the counterexample). -/
theorem C1_empty_question_no_request (service : Service) (expert q : String)
    (h : q = "") :
    handle_submit service expert q = ([UIEvent.warning warnText], []) := by
  subst h
  simp [handle_submit]

/-- Witness for the amended claim C1 at a concrete input. -/
theorem C1_empty_question_no_request_witness :
    handle_submit stubService "歴史学者" "" = ([UIEvent.warning warnText], []) :=
  C1_empty_question_no_request stubService "歴史学者" "" rfl

/-- Claim C2: whenever the remote call raises (any exception) or the
response is malformed (no choices, so `response.choices[0]` raises
`IndexError`), `get_llm_response` catches the error internally and returns
the fixed failure string, and the controller stays interactive: no uncaught
exception event ever reaches the submission handler's output for a
catalogued persona. -/
theorem C2_errors_caught (service : Service) (q i : String)
    (h : (∃ e, service (mkRequest q i) = Except.error e) ∨
         (∃ r, service (mkRequest q i) = Except.ok r ∧ r.choices = [])) :
    (get_llm_response service q i).result = PyValue.str failureString ∧
    ∀ expert v, expert_roles.lookup expert = some v → q ≠ "" →
      ∀ m, UIEvent.exception m ∉ (handle_submit service expert q).1 := by
  constructor
  · rcases h with ⟨e, hs⟩ | ⟨r, hs, hr⟩
    · simp [get_llm_response, hs]
    · simp [get_llm_response, hs, hr]
  · intro expert v hv hq m
    simp only [handle_submit, if_pos hq, hv]
    rcases get_llm_response_events_cases service q v with he | ⟨m₂, he⟩ <;>
      simp [he]

/-- Witness for claim C2: a stub raising a transport error yields the fixed
failure string, and the handler's output for persona 歴史学者 contains no
uncaught-exception event. -/
theorem C2_errors_caught_witness :
    (get_llm_response failingService "How are you?" "instr").result
      = PyValue.str failureString ∧
    UIEvent.exception "KeyError: 歴史学者" ∉
      (handle_submit failingService "歴史学者" "How are you?").1 := by
  have h := C2_errors_caught failingService "How are you?" "instr"
    (Or.inl ⟨"Connection error.", rfl⟩)
  exact ⟨h.1, h.2 "歴史学者" _ rfl (by decide) "KeyError: 歴史学者"⟩

/-- Claim C3: the payload of every call is exactly the two-message list —
system-role instruction first, user-role question second — with temperature
0.7 (the rational 7/10), a 500-token cap and the fixed model identifier
"gpt-3.5-turbo"; and that payload is the only request the call submits. -/
theorem C3_request_payload (service : Service) (q i : String) :
    (mkRequest q i).messages = [Message.mk "system" i, Message.mk "user" q] ∧
    (mkRequest q i).temperature = 7 / 10 ∧
    (mkRequest q i).max_tokens = 500 ∧
    (mkRequest q i).model = "gpt-3.5-turbo" ∧
    (get_llm_response service q i).requests = [mkRequest q i] :=
  ⟨rfl, rfl, rfl, rfl, get_llm_response_requests service q i⟩

/-- Claim C4: the persona catalog has exactly the four configured personas,
the radio-option list `list_personas` is those four names in insertion
order, and `instruction_for` returns a non-empty instruction string for
each of them. -/
theorem C4_persona_catalog :
    list_personas = ["ITコンサルタント", "料理研究家", "歴史学者", "キャリアアドバイザー"] ∧
    list_personas.length = 4 ∧
    ∀ name ∈ list_personas, instructionOkNonempty name = true := by
  decide

/-- Witness for claim C4 at a concrete persona name. -/
theorem C4_persona_catalog_witness :
    instructionOkNonempty "歴史学者" = true :=
  C4_persona_catalog.2.2 "歴史学者" (by decide)

/-- Claim C5: on a successful remote call whose first choice carries text,
`get_llm_response` returns exactly that text, and the handler renders it
with `st.write` directly under a subheader naming the selected persona. -/
theorem C5_success_rendering (service : Service) (expert instr q text : String)
    (hq : q ≠ "") (hlook : expert_roles.lookup expert = some instr)
    (hresp : ∃ r c, service (mkRequest q instr) = Except.ok r ∧
       r.choices.head? = some c ∧ c.message.content = some text) :
    (get_llm_response service q instr).result = PyValue.str text ∧
    (handle_submit service expert q).1 =
      [UIEvent.spinner spinnerText,
       UIEvent.subheader ("✨ " ++ expert ++ "からの回答:"),
       UIEvent.write (PyValue.str text)] := by
  obtain ⟨r, c, hs, hc, hm⟩ := hresp
  have hres : get_llm_response service q instr =
      LLMCall.mk (PyValue.str text) [] [mkRequest q instr] := by
    simp [get_llm_response, hs, hc, hm]
  constructor
  · rw [hres]
  · simp only [handle_submit, if_pos hq, hlook]
    rw [hres]
    rfl

/-- Witness for claim C5: the stubbed response "Hello, adventurer." for
persona 歴史学者 and question "How are you?" is rendered verbatim under the
歴史学者 subheader. -/
theorem C5_success_rendering_witness :
    (handle_submit stubService "歴史学者" "How are you?").1 =
      [UIEvent.spinner spinnerText,
       UIEvent.subheader ("✨ " ++ "歴史学者" ++ "からの回答:"),
       UIEvent.write (PyValue.str "Hello, adventurer.")] :=
  (C5_success_rendering stubService "歴史学者" _ "How are you?" "Hello, adventurer."
    (by decide) rfl ⟨_, _, rfl, rfl, rfl⟩).2

/-- Claim C6: when `OPENAI_API_KEY` is absent from the environment, the
script halts right after the credential error: its entire output is that one
error call — no persona radio, no text area, no submit button is ever
created — and no request is recorded. -/
theorem C6_missing_credential_halts (service : Service)
    (selected_expert user_question : String) (clicked : Bool) :
    app Option.none service selected_expert user_question clicked
      = ([UIEvent.error apiKeyErrorText], []) ∧
    (∀ l o, UIEvent.radio l o ∉
      (app Option.none service selected_expert user_question clicked).1) ∧
    (∀ l n, UIEvent.textArea l n ∉
      (app Option.none service selected_expert user_question clicked).1) ∧
    (∀ l, UIEvent.button l ∉
      (app Option.none service selected_expert user_question clicked).1) ∧
    (app Option.none service selected_expert user_question clicked).2 = [] := by
  refine ⟨rfl, ?_, ?_, ?_, rfl⟩ <;> intros <;> simp [app]

/-- Claim C7: for every name outside the catalog, `instruction_for` fails
with a `KeyError` (a `LookupError` kind) carrying that name; for every name
the radio offers, the lookup succeeds, so the failure is unreachable under
the UI's precondition. -/
theorem C7_unknown_persona_lookup :
    (∀ name, name ∉ list_personas →
       instruction_for name = Except.error (PyErr.keyError name)) ∧
    (∀ name ∈ list_personas, ∃ s, instruction_for name = Except.ok s) := by
  constructor
  · intro name h
    simp only [list_personas, expert_roles, List.map_cons, List.map_nil,
      List.mem_cons, List.not_mem_nil, or_false, not_or] at h
    obtain ⟨h1, h2, h3, h4⟩ := h
    have b1 : (name == "ITコンサルタント") = false := beq_eq_false_iff_ne.mpr h1
    have b2 : (name == "料理研究家") = false := beq_eq_false_iff_ne.mpr h2
    have b3 : (name == "歴史学者") = false := beq_eq_false_iff_ne.mpr h3
    have b4 : (name == "キャリアアドバイザー") = false := beq_eq_false_iff_ne.mpr h4
    simp [instruction_for, expert_roles, List.lookup, b1, b2, b3, b4]
  · intro name h
    simp only [list_personas, expert_roles, List.map_cons, List.map_nil,
      List.mem_cons, List.not_mem_nil, or_false] at h
    rcases h with rfl | rfl | rfl | rfl <;> exact ⟨_, rfl⟩

/-- Witness for claim C7: a concrete unknown name fails with `KeyError`,
and a concrete offered name succeeds. -/
theorem C7_unknown_persona_lookup_witness :
    instruction_for "検察官" = Except.error (PyErr.keyError "検察官") ∧
    ∃ s, instruction_for "料理研究家" = Except.ok s :=
  ⟨C7_unknown_persona_lookup.1 "検察官" (by decide),
   C7_unknown_persona_lookup.2 "料理研究家" (by decide)⟩

/-- Claim C8: `get_llm_response` is stateless — its outcome is a function
of its arguments and of the service's (deterministic) answer to the single
request it submits, so two calls with identical inputs against services that
agree on that request produce identical outcomes. -/
theorem C8_stateless_deterministic (s₁ s₂ : Service) (q i : String)
    (h : s₁ (mkRequest q i) = s₂ (mkRequest q i)) :
    get_llm_response s₁ q i = get_llm_response s₂ q i := by
  simp only [get_llm_response, h]

/-- Witness for claim C8: two stubs that agree on the submitted request
(but differ elsewhere) yield identical outcomes on identical inputs. -/
theorem C8_stateless_deterministic_witness :
    get_llm_response stubService "How are you?" "You are a historian."
      = get_llm_response stubService₂ "How are you?" "You are a historian." :=
  C8_stateless_deterministic stubService stubService₂
    "How are you?" "You are a historian." rfl

/-- Claim C9, counterexample: on the failure path `get_llm_response` is not
free of UI side effects — it issues an `st.error` call (line 75), so its
recorded Streamlit-call list is non-empty. -/
theorem C9_counterexample :
    (get_llm_response failingService "How are you?" "You are a historian.").events
      = [UIEvent.error (errorHead ++ "Connection error.")] ∧
    (get_llm_response failingService "How are you?" "You are a historian.").events
      ≠ [] := by
  exact ⟨by decide, by decide⟩

/-- Claim C9 (amended): the only side effects of `get_llm_response` are the
single outbound request and, on the failure path, one `st.error` UI write:
it submits exactly one request, issues no Streamlit call at all on the
success path, and every Streamlit call it ever issues is an `st.error`. -/
theorem C9_effects (service : Service) (q i : String) :
    (get_llm_response service q i).requests = [mkRequest q i] ∧
    ((∃ r c, service (mkRequest q i) = Except.ok r ∧ r.choices.head? = some c) →
      (get_llm_response service q i).events = []) ∧
    (get_llm_response service q i).events.all isErrorEvent = true := by
  refine ⟨get_llm_response_requests service q i, ?_, ?_⟩
  · rintro ⟨r, c, hs, hc⟩
    cases hm : c.message.content with
    | none => simp [get_llm_response, hs, hc, hm]
    | some t => simp [get_llm_response, hs, hc, hm]
  · rcases get_llm_response_events_cases service q i with he | ⟨m, he⟩ <;>
      simp [he, isErrorEvent]

/-- Witness for the amended claim C9: on a successful stubbed call no
Streamlit call is issued. -/
theorem C9_effects_witness :
    (get_llm_response stubService "How are you?" "You are a historian.").events = [] :=
  (C9_effects stubService "How are you?" "You are a historian.").2.1 ⟨_, _, rfl, rfl⟩

/-- Claim C10 (implicit): `get_llm_response` returns
`response.choices[0].message.content` unchecked, so when a successful
response's first choice has `null` content the function returns Python's
`None` despite its declared `str` return type. -/
theorem C10_null_content_returns_none (service : Service) (q i : String)
    (r : Response) (c : Choice)
    (hr : service (mkRequest q i) = Except.ok r)
    (hc : r.choices.head? = some c)
    (hn : c.message.content = Option.none) :
    (get_llm_response service q i).result = PyValue.pyNone := by
  simp [get_llm_response, hr, hc, hn]

/-- Witness for claim C10 at a stub whose first choice has null content. -/
theorem C10_null_content_returns_none_witness :
    (get_llm_response nullContentService "How are you?" "You are a historian.").result
      = PyValue.pyNone :=
  C10_null_content_returns_none nullContentService "How are you?"
    "You are a historian." _ _ rfl rfl rfl
